import Mathlib

/-!
# Verification of the libusb-over-chrome.usb translation layer

Shallow embedding of `third_party/libusb/naclport/src/libusb_over_chrome_usb.cc`.
Pure translation helpers become Lean functions; byte buffers are `List Nat`
(each element a byte value); C `int` values are modelled as `Int`.  A fatal
`GOOGLE_SMART_CARD_CHECK` / `GOOGLE_SMART_CARD_NOTREACHED` assertion failure is
modelled by the `Outcome.abort` constructor, while ordinary returned error
codes stay inside `Outcome.ok`.
-/

set_option autoImplicit false

namespace ChromeUsbLibusb

/-! ## Constants from libusb.h and the source file -/

/-- Stub for the device bus number (`kFakeDeviceBusNumber` in the source). -/
def kFakeDeviceBusNumber : Nat := 42

def LIBUSB_SUCCESS : Int := 0
def LIBUSB_ERROR_INVALID_PARAM : Int := -2
def LIBUSB_ERROR_NOT_FOUND : Int := -5
def LIBUSB_ERROR_TIMEOUT : Int := -7
def LIBUSB_ERROR_NOT_SUPPORTED : Int := -12
def LIBUSB_ERROR_OTHER : Int := -99

def LIBUSB_TRANSFER_TYPE_CONTROL : Nat := 0
def LIBUSB_TRANSFER_TYPE_ISOCHRONOUS : Nat := 1
def LIBUSB_TRANSFER_TYPE_BULK : Nat := 2
def LIBUSB_TRANSFER_TYPE_INTERRUPT : Nat := 3

/-- libusb transfer flag bits. -/
def LIBUSB_TRANSFER_SHORT_NOT_OK : Nat := 1
def LIBUSB_TRANSFER_FREE_BUFFER : Nat := 2
def LIBUSB_TRANSFER_FREE_TRANSFER : Nat := 4
def LIBUSB_TRANSFER_ADD_ZERO_PACKET : Nat := 8

/-- Size in bytes of the `libusb_control_setup` block at the head of a control
transfer buffer. -/
def LIBUSB_CONTROL_SETUP_SIZE : Nat := 8

def LIBUSB_ENDPOINT_DIR_MASK : Nat := 0x80
def LIBUSB_ENDPOINT_OUT : Nat := 0

def LIBUSB_DT_DEVICE : Nat := 1
def LIBUSB_DT_CONFIG : Nat := 2
def LIBUSB_DT_INTERFACE : Nat := 4
def LIBUSB_DT_ENDPOINT : Nat := 5

/-- Transfer type / iso-sync / iso-usage bit-field shifts inside the packed
`bmAttributes` byte (`kLibusbTransferTypeMaskShift` etc. in the source). -/
def kLibusbTransferTypeMaskShift : Nat := 0
def kLibusbIsoSyncTypeMaskShift : Nat := 2
def kLibusbIsoUsageTypeMaskShift : Nat := 4

def LIBUSB_ISO_SYNC_TYPE_ASYNC : Nat := 1
def LIBUSB_ISO_SYNC_TYPE_ADAPTIVE : Nat := 2
def LIBUSB_ISO_SYNC_TYPE_SYNC : Nat := 3

def LIBUSB_ISO_USAGE_TYPE_DATA : Nat := 0
def LIBUSB_ISO_USAGE_TYPE_FEEDBACK : Nat := 1
def LIBUSB_ISO_USAGE_TYPE_IMPLICIT : Nat := 2

def kLibusbConfigDescriptorBmAttributesRemoteWakeup : Nat := 1 <<< 5
def kLibusbConfigDescriptorBmAttributesSelfPowered : Nat := 1 <<< 6

/-- Recipient bits mask of `bmRequestType` (`kLibusbRequestRecipientMask`). -/
def kLibusbRequestRecipientMask : Nat := 0x03
/-- Request-type bits mask of `bmRequestType` (`kLibusbRequestTypeMask`). -/
def kLibusbRequestTypeMask : Nat := 0x60

/-- Success value of `chrome_usb::TransferResultInfo::result_code`. -/
def kTransferResultInfoSuccessResultCode : Int := 0

/-- Structure byte sizes used for the `bLength`-style fields.  The exact
values are platform `sizeof` results; no property below depends on them. -/
def sizeofLibusbEndpointDescriptor : Nat := 56
def sizeofLibusbInterfaceDescriptor : Nat := 72
def sizeofLibusbConfigDescriptor : Nat := 72
def sizeofLibusbDeviceDescriptor : Nat := 18

/-! ## Basic execution model -/

/-- Result of running a piece of code that may hit a fatal
`GOOGLE_SMART_CARD_CHECK` assertion: either a normal value or an abort. -/
inductive Outcome (α : Type) where
  | ok (val : α) : Outcome α
  | abort : Outcome α
  deriving DecidableEq, Repr

/-- Outcome of one upstream chrome.usb request
(`RequestResult<T>` in the source): success with a payload, cancellation, or
failure with an error message (message not modelled). -/
inductive RequestResult (α : Type) where
  | success (payload : α) : RequestResult α
  | canceled : RequestResult α
  | failed : RequestResult α
  deriving DecidableEq, Repr

/-- The `libusb_transfer_status` enumeration values used by this layer. -/
inductive LibusbTransferStatus where
  | completed
  | error
  | timedOut
  | cancelled
  deriving DecidableEq, Repr

/-- Overwrite the first `n` bytes of `dst` with the first `n` bytes of `src`
(the effect of `std::copy_n(src.begin(), n, dst)`). -/
def listOverwrite (dst src : List Nat) (n : Nat) : List Nat :=
  src.take n ++ dst.drop n

/-- `CopyRawData` applied to a `pp::VarArrayBuffer`: returns a null pointer
for an empty buffer and an independent copy of the bytes otherwise. -/
def copyRawData (data : List Nat) : Option (List Nat) :=
  if data.isEmpty then none else some data

/-! ## Transfer results (`ProcessLibusbTransferResult`) -/

/-- `chrome_usb::TransferResultInfo`: an optional numeric result code and an
optional response byte buffer. -/
structure TransferResultInfo where
  result_code : Option Int
  data : Option (List Nat)
  deriving DecidableEq, Repr

/-- Combined effect of `ProcessLibusbTransferResult`: the returned
`libusb_transfer_status`, the destination buffer after the byte copy, and the
value stored through the `actual_length` out-pointer (`none` when the code
path returned before reaching the store). -/
structure ProcessResult where
  status : LibusbTransferStatus
  data : List Nat
  actualLength : Option Int
  deriving DecidableEq, Repr

/-- `ProcessLibusbTransferResult` of the source: maps one chrome.usb transfer
result onto a libusb transfer status, copying
`min(response length, requested length)` response bytes into `data` and
reporting them as the actual length; a missing response buffer counts as a
fully-written outbound transfer; with `is_short_not_ok` a short read is
forced to the error status. -/
def processLibusbTransferResult (info : TransferResultInfo)
    (isShortNotOk : Bool) (length : Int) (data : List Nat) : ProcessResult :=
  match info.result_code with
  | none => ⟨.error, data, none⟩
  | some code =>
    if code ≠ kTransferResultInfoSuccessResultCode then ⟨.error, data, none⟩
    else
      let step : Int × List Nat :=
        match info.data with
        | some respData =>
          let v : Int := min (Int.ofNat respData.length) length
          (v, if v ≠ 0 then listOverwrite data respData v.toNat else data)
        | none => (length, data)
      let status :=
        if isShortNotOk ∧ step.1 < length then LibusbTransferStatus.error
        else LibusbTransferStatus.completed
      ⟨status, step.2, some step.1⟩

/-- `LibusbTransferStatusToLibusbErrorCode` of the source. -/
def libusbTransferStatusToLibusbErrorCode :
    LibusbTransferStatus → Int
  | .completed => LIBUSB_SUCCESS
  | .timedOut => LIBUSB_ERROR_TIMEOUT
  | _ => LIBUSB_ERROR_OTHER

/-! ## chrome.usb descriptor records -/

/-- `chrome_usb::EndpointDescriptorType`. -/
inductive EndpointDescriptorType where
  | kControl
  | kInterrupt
  | kIsochronous
  | kBulk
  deriving DecidableEq, Repr

/-- `chrome_usb::EndpointDescriptorSynchronization`. -/
inductive EndpointDescriptorSynchronization where
  | kAsynchronous
  | kAdaptive
  | kSynchronous
  deriving DecidableEq, Repr

/-- `chrome_usb::EndpointDescriptorUsage`. -/
inductive EndpointDescriptorUsage where
  | kData
  | kFeedback
  | kExplicitFeedback
  deriving DecidableEq, Repr

/-- `chrome_usb::EndpointDescriptor` platform record. -/
structure ChromeUsbEndpointDescriptor where
  address : Nat
  type : EndpointDescriptorType
  synchronization : Option EndpointDescriptorSynchronization
  usage : Option EndpointDescriptorUsage
  maximum_packet_size : Nat
  polling_interval : Option Nat
  extra_data : List Nat
  deriving DecidableEq, Repr

/-- `chrome_usb::InterfaceDescriptor` platform record. -/
structure ChromeUsbInterfaceDescriptor where
  interface_number : Nat
  interface_class : Nat
  interface_subclass : Nat
  interface_protocol : Nat
  endpoints : List ChromeUsbEndpointDescriptor
  extra_data : List Nat
  deriving DecidableEq, Repr

/-- `chrome_usb::ConfigDescriptor` platform record. -/
structure ChromeUsbConfigDescriptor where
  active : Bool
  configuration_value : Nat
  remote_wakeup : Bool
  self_powered : Bool
  max_power : Nat
  interfaces : List ChromeUsbInterfaceDescriptor
  extra_data : List Nat
  deriving DecidableEq, Repr

/-! ## libusb descriptor structures -/

/-- `libusb_endpoint_descriptor`; `extra = none` models a null `extra`
pointer. -/
structure LibusbEndpointDescriptor where
  bLength : Nat
  bDescriptorType : Nat
  bEndpointAddress : Nat
  bmAttributes : Nat
  wMaxPacketSize : Nat
  bInterval : Nat
  bRefresh : Nat
  bSynchAddress : Nat
  extra : Option (List Nat)
  extra_length : Nat
  deriving DecidableEq, Repr

/-- `libusb_interface_descriptor`. -/
structure LibusbInterfaceDescriptor where
  bLength : Nat
  bDescriptorType : Nat
  bInterfaceNumber : Nat
  bAlternateSetting : Nat
  bNumEndpoints : Nat
  bInterfaceClass : Nat
  bInterfaceSubClass : Nat
  bInterfaceProtocol : Nat
  iInterface : Nat
  endpoint : List LibusbEndpointDescriptor
  extra : Option (List Nat)
  extra_length : Nat
  deriving DecidableEq, Repr

/-- `libusb_interface`: an array of alternate settings (always exactly one in
this layer). -/
structure LibusbInterface where
  altsetting : List LibusbInterfaceDescriptor
  num_altsetting : Nat
  deriving DecidableEq, Repr

/-- `libusb_config_descriptor`. -/
structure LibusbConfigDescriptor where
  bLength : Nat
  bDescriptorType : Nat
  wTotalLength : Nat
  bNumInterfaces : Nat
  bConfigurationValue : Nat
  iConfiguration : Nat
  bmAttributes : Nat
  MaxPower : Nat
  itf : List LibusbInterface
  extra : Option (List Nat)
  extra_length : Nat
  deriving DecidableEq, Repr

/-! ## Descriptor translation (`FillLibusb*` helpers) -/

/-- `ChromeUsbEndpointDescriptorTypeToLibusbMask`: the transfer-type bits of
the packed attributes byte (total on the enumeration; the C++ `default`
branch is unreachable for well-formed enum values). -/
def chromeUsbEndpointDescriptorTypeToLibusbMask :
    EndpointDescriptorType → Nat
  | .kControl => LIBUSB_TRANSFER_TYPE_CONTROL <<< kLibusbTransferTypeMaskShift
  | .kInterrupt => LIBUSB_TRANSFER_TYPE_INTERRUPT <<< kLibusbTransferTypeMaskShift
  | .kIsochronous =>
      LIBUSB_TRANSFER_TYPE_ISOCHRONOUS <<< kLibusbTransferTypeMaskShift
  | .kBulk => LIBUSB_TRANSFER_TYPE_BULK <<< kLibusbTransferTypeMaskShift

/-- `ChromeUsbEndpointDescriptorSynchronizationToLibusbMask`. -/
def chromeUsbEndpointDescriptorSynchronizationToLibusbMask :
    EndpointDescriptorSynchronization → Nat
  | .kAsynchronous => LIBUSB_ISO_SYNC_TYPE_ASYNC <<< kLibusbIsoSyncTypeMaskShift
  | .kAdaptive => LIBUSB_ISO_SYNC_TYPE_ADAPTIVE <<< kLibusbIsoSyncTypeMaskShift
  | .kSynchronous => LIBUSB_ISO_SYNC_TYPE_SYNC <<< kLibusbIsoSyncTypeMaskShift

/-- `ChromeUsbEndpointDescriptorUsageToLibusbMask` (note the source maps
`kExplicitFeedback` onto the `IMPLICIT` libusb constant). -/
def chromeUsbEndpointDescriptorUsageToLibusbMask :
    EndpointDescriptorUsage → Nat
  | .kData => LIBUSB_ISO_USAGE_TYPE_DATA <<< kLibusbIsoUsageTypeMaskShift
  | .kFeedback => LIBUSB_ISO_USAGE_TYPE_FEEDBACK <<< kLibusbIsoUsageTypeMaskShift
  | .kExplicitFeedback =>
      LIBUSB_ISO_USAGE_TYPE_IMPLICIT <<< kLibusbIsoUsageTypeMaskShift

/-- The `bmAttributes` computation inside `FillLibusbEndpointDescriptor`:
the transfer-type bits, plus — for an isochronous endpoint only — the
synchronization and usage bits, whose platform fields are
`GOOGLE_SMART_CARD_CHECK`-asserted to be present (abort otherwise). -/
def endpointBmAttributes (d : ChromeUsbEndpointDescriptor) : Outcome Nat :=
  if d.type = EndpointDescriptorType.kIsochronous then
    match d.synchronization with
    | none => .abort
    | some s =>
      match d.usage with
      | none => .abort
      | some u =>
        .ok (chromeUsbEndpointDescriptorTypeToLibusbMask d.type |||
          chromeUsbEndpointDescriptorSynchronizationToLibusbMask s |||
          chromeUsbEndpointDescriptorUsageToLibusbMask u)
  else .ok (chromeUsbEndpointDescriptorTypeToLibusbMask d.type)

/-- `FillLibusbEndpointDescriptor`: translate one platform endpoint record
(abort when `endpointBmAttributes` aborts). -/
def fillLibusbEndpointDescriptor (d : ChromeUsbEndpointDescriptor) :
    Outcome LibusbEndpointDescriptor :=
  match endpointBmAttributes d with
  | .abort => .abort
  | .ok attrs =>
    .ok {
      bLength := sizeofLibusbEndpointDescriptor
      bDescriptorType := LIBUSB_DT_ENDPOINT
      bEndpointAddress := d.address
      bmAttributes := attrs
      wMaxPacketSize := d.maximum_packet_size
      bInterval := d.polling_interval.getD 0
      bRefresh := 0
      bSynchAddress := 0
      extra := copyRawData d.extra_data
      extra_length := d.extra_data.length }

/-- Map an abortable translation over a list, aborting as soon as one element
aborts (the C++ loops run the `GOOGLE_SMART_CARD_CHECK`s in order). -/
def outcomeMapList {α β : Type} (f : α → Outcome β) : List α → Outcome (List β)
  | [] => .ok []
  | x :: xs =>
    match f x with
    | .abort => .abort
    | .ok y =>
      match outcomeMapList f xs with
      | .abort => .abort
      | .ok ys => .ok (y :: ys)

/-- `FillLibusbInterfaceDescriptor`: translate one platform interface record
together with all of its endpoints. -/
def fillLibusbInterfaceDescriptor (d : ChromeUsbInterfaceDescriptor) :
    Outcome LibusbInterfaceDescriptor :=
  match outcomeMapList fillLibusbEndpointDescriptor d.endpoints with
  | .abort => .abort
  | .ok endpoints =>
    .ok {
      bLength := sizeofLibusbInterfaceDescriptor
      bDescriptorType := LIBUSB_DT_INTERFACE
      bInterfaceNumber := d.interface_number
      bAlternateSetting := 0
      bNumEndpoints := d.endpoints.length
      bInterfaceClass := d.interface_class
      bInterfaceSubClass := d.interface_subclass
      bInterfaceProtocol := d.interface_protocol
      iInterface := 0
      endpoint := endpoints
      extra := copyRawData d.extra_data
      extra_length := d.extra_data.length }

/-- `FillLibusbInterface`: exactly one alternate setting per interface. -/
def fillLibusbInterface (d : ChromeUsbInterfaceDescriptor) :
    Outcome LibusbInterface :=
  match fillLibusbInterfaceDescriptor d with
  | .abort => .abort
  | .ok desc => .ok { altsetting := [desc], num_altsetting := 1 }

/-- `FillLibusbConfigDescriptor`: translate one platform configuration record
together with its interfaces. -/
def fillLibusbConfigDescriptor (d : ChromeUsbConfigDescriptor) :
    Outcome LibusbConfigDescriptor :=
  match outcomeMapList fillLibusbInterface d.interfaces with
  | .abort => .abort
  | .ok interfaces =>
    .ok {
      bLength := sizeofLibusbConfigDescriptor
      bDescriptorType := LIBUSB_DT_CONFIG
      wTotalLength := sizeofLibusbConfigDescriptor
      bNumInterfaces := d.interfaces.length
      bConfigurationValue := d.configuration_value
      iConfiguration := 0
      bmAttributes :=
        (if d.remote_wakeup then
          kLibusbConfigDescriptorBmAttributesRemoteWakeup else 0) |||
        (if d.self_powered then
          kLibusbConfigDescriptorBmAttributesSelfPowered else 0)
      MaxPower := d.max_power
      itf := interfaces
      extra := copyRawData d.extra_data
      extra_length := d.extra_data.length }

/-- The selection loop inside `LibusbGetActiveConfigDescriptor`: walks the
platform configuration list, translating every record flagged active; a
second active record trips the `GOOGLE_SMART_CARD_CHECK(!*config_descriptor)`
assertion and aborts. -/
def buildActiveConfigDescriptor :
    List ChromeUsbConfigDescriptor → Option LibusbConfigDescriptor →
    Outcome (Option LibusbConfigDescriptor)
  | [], acc => .ok acc
  | c :: rest, acc =>
    if c.active then
      match acc with
      | some _ => .abort
      | none =>
        match fillLibusbConfigDescriptor c with
        | .abort => .abort
        | .ok desc => buildActiveConfigDescriptor rest (some desc)
    else buildActiveConfigDescriptor rest acc

/-- `LibusbGetActiveConfigDescriptor`, with the upstream
`GetConfigurations` call modelled by its result: `none` for a failed request,
`some configs` for a successful one.  Returns the status code together with
the translated descriptor stored through the out-pointer. -/
def libusbGetActiveConfigDescriptor
    (upstream : Option (List ChromeUsbConfigDescriptor)) :
    Outcome (Int × Option LibusbConfigDescriptor) :=
  match upstream with
  | none => .ok (LIBUSB_ERROR_OTHER, none)
  | some configs =>
    match buildActiveConfigDescriptor configs none with
    | .abort => .abort
    | .ok none => .ok (LIBUSB_ERROR_OTHER, none)
    | .ok (some desc) => .ok (LIBUSB_SUCCESS, some desc)

/-! ## Transfers -/

/-- `libusb_transfer`.  Pointer-validity of `dev_handle` and of the device /
context reachable through it is modelled by the two boolean fields, since the
opaque handle types live outside this translation unit.  `buffer` is the
caller's byte buffer (assumed non-null, as in every call path exercised
here); `status` and `actual_length` are the post-completion fields. -/
structure LibusbTransfer where
  devHandlePresent : Bool
  devicePresent : Bool
  type : Nat
  flags : Nat
  endpoint : Nat
  length : Int
  buffer : List Nat
  timeout : Nat
  status : LibusbTransferStatus
  actual_length : Int
  deriving DecidableEq, Repr

/-- `libusb_control_setup`: the fixed 8-byte little-endian block at the start
of a control transfer's buffer. -/
structure LibusbControlSetup where
  bmRequestType : Nat
  bRequest : Nat
  wValue : Nat
  wIndex : Nat
  wLength : Nat
  deriving DecidableEq, Repr

/-- Little-endian 16-bit value from two bytes. -/
def le16 (lo hi : Nat) : Nat := lo + 256 * hi

/-- `libusb_control_transfer_get_setup`: view the first 8 buffer bytes as the
control-setup block (multi-byte fields little-endian, as
`libusb_le16_to_cpu` reads them). -/
def libusbControlTransferGetSetup (buffer : List Nat) : LibusbControlSetup :=
  { bmRequestType := buffer.getD 0 0
    bRequest := buffer.getD 1 0
    wValue := le16 (buffer.getD 2 0) (buffer.getD 3 0)
    wIndex := le16 (buffer.getD 4 0) (buffer.getD 5 0)
    wLength := le16 (buffer.getD 6 0) (buffer.getD 7 0) }

/-- `chrome_usb::Direction`. -/
inductive Direction where
  | kIn
  | kOut
  deriving DecidableEq, Repr

/-- `chrome_usb::ControlTransferInfoRecipient`. -/
inductive ControlTransferInfoRecipient where
  | kDevice
  | kInterface
  | kEndpoint
  | kOther
  deriving DecidableEq, Repr

/-- `chrome_usb::ControlTransferInfoRequestType`. -/
inductive ControlTransferInfoRequestType where
  | kStandard
  | kClass
  | kVendor
  | kReserved
  deriving DecidableEq, Repr

/-- `chrome_usb::ControlTransferInfo` request record. -/
structure ControlTransferInfo where
  direction : Direction
  recipient : ControlTransferInfoRecipient
  requestType : ControlTransferInfoRequestType
  request : Nat
  value : Nat
  index : Nat
  length : Option Nat
  data : Option (List Nat)
  timeout : Nat
  deriving DecidableEq, Repr

/-- `chrome_usb::GenericTransferInfo` request record (bulk/interrupt). -/
structure GenericTransferInfo where
  direction : Direction
  endpoint : Nat
  length : Option Int
  data : Option (List Nat)
  timeout : Nat
  deriving DecidableEq, Repr

/-- The field-level `CreateChromeUsbControlTransferInfo` overload.  Both
`switch`es are total: the two masks leave exactly the four handled values, so
the `GOOGLE_SMART_CARD_NOTREACHED` defaults are unreachable and the function
always returns `true` in the source. -/
def createChromeUsbControlTransferInfoFromFields
    (requestType request value index : Nat) (data : List Nat) (length : Nat)
    (timeout : Nat) : ControlTransferInfo :=
  let direction :=
    if requestType &&& LIBUSB_ENDPOINT_DIR_MASK = LIBUSB_ENDPOINT_OUT then
      Direction.kOut
    else Direction.kIn
  let recipient :=
    match requestType &&& kLibusbRequestRecipientMask with
    | 0 => ControlTransferInfoRecipient.kDevice
    | 1 => ControlTransferInfoRecipient.kInterface
    | 2 => ControlTransferInfoRecipient.kEndpoint
    | _ => ControlTransferInfoRecipient.kOther
  let reqType :=
    match requestType &&& kLibusbRequestTypeMask with
    | 0x00 => ControlTransferInfoRequestType.kStandard
    | 0x20 => ControlTransferInfoRequestType.kClass
    | 0x40 => ControlTransferInfoRequestType.kVendor
    | _ => ControlTransferInfoRequestType.kReserved
  { direction := direction
    recipient := recipient
    requestType := reqType
    request := request
    value := value
    index := index
    length := if direction = Direction.kIn then some length else none
    data :=
      if direction = Direction.kOut then some (data.take length) else none
    timeout := timeout }

/-- The transfer-level `CreateChromeUsbControlTransferInfo` overload: reads
the setup block from the head of the buffer, validates the declared lengths,
and on success builds the request from the remaining payload bytes.  `none`
models the `return false` (invalid parameter) paths. -/
def createChromeUsbControlTransferInfo (t : LibusbTransfer) :
    Option ControlTransferInfo :=
  if t.length < 0 ∨ t.length < (LIBUSB_CONTROL_SETUP_SIZE : Int) then none
  else
    let setup := libusbControlTransferGetSetup t.buffer
    let dataLength := setup.wLength
    if (dataLength : Int) ≠ t.length - (LIBUSB_CONTROL_SETUP_SIZE : Int) then
      none
    else
      some (createChromeUsbControlTransferInfoFromFields
        setup.bmRequestType setup.bRequest setup.wValue setup.wIndex
        (t.buffer.drop LIBUSB_CONTROL_SETUP_SIZE) dataLength t.timeout)

/-- The field-level `CreateChromeUsbGenericTransferInfo` overload. -/
def createChromeUsbGenericTransferInfoFromFields
    (endpointAddress : Nat) (data : List Nat) (length : Int) (timeout : Nat) :
    GenericTransferInfo :=
  let direction :=
    if endpointAddress &&& LIBUSB_ENDPOINT_DIR_MASK = LIBUSB_ENDPOINT_OUT then
      Direction.kOut
    else Direction.kIn
  { direction := direction
    endpoint := endpointAddress
    length := if direction = Direction.kIn then some length else none
    data :=
      if direction = Direction.kOut then some (data.take length.toNat)
      else none
    timeout := timeout }

/-- The transfer-level `CreateChromeUsbGenericTransferInfo` overload. -/
def createChromeUsbGenericTransferInfo (t : LibusbTransfer) :
    GenericTransferInfo :=
  createChromeUsbGenericTransferInfoFromFields t.endpoint t.buffer t.length
    t.timeout

/-- `LibusbAllocTransfer`: a non-zero isochronous packet count trips the
`GOOGLE_SMART_CARD_CHECK` (abort); otherwise a zero-filled transfer is
returned. -/
def libusbAllocTransfer (isochronousPacketCount : Int) :
    Outcome LibusbTransfer :=
  if isochronousPacketCount ≠ 0 then .abort
  else
    .ok {
      devHandlePresent := false
      devicePresent := false
      type := 0
      flags := 0
      endpoint := 0
      length := 0
      buffer := []
      timeout := 0
      status := .completed
      actual_length := 0 }

/-- `LibusbSubmitTransfer`: validates the transfer and hands the built
request to the platform binding (the handing-off itself is an external
effect; only the returned code and the abort behaviour are modelled).
Null transfer / null `dev_handle` / a transfer type outside
control-bulk-interrupt / an unresolvable owning context each trip a
`GOOGLE_SMART_CARD_CHECK` and abort. -/
def libusbSubmitTransfer (t : LibusbTransfer) : Outcome Int :=
  if ¬ t.devHandlePresent then .abort
  else if ¬ (t.type = LIBUSB_TRANSFER_TYPE_CONTROL ∨
      t.type = LIBUSB_TRANSFER_TYPE_BULK ∨
      t.type = LIBUSB_TRANSFER_TYPE_INTERRUPT) then .abort
  else if t.flags &&& LIBUSB_TRANSFER_ADD_ZERO_PACKET ≠ 0 then
    .ok LIBUSB_ERROR_NOT_SUPPORTED
  else if ¬ t.devicePresent then .abort
  else if t.type = LIBUSB_TRANSFER_TYPE_CONTROL then
    match createChromeUsbControlTransferInfo t with
    | none => .ok LIBUSB_ERROR_INVALID_PARAM
    | some _ => .ok LIBUSB_SUCCESS
  else .ok LIBUSB_SUCCESS

/-- `ProcessCompletedAsyncTransfer`: finalize one extracted transfer.  On a
successful upstream result the response is processed into the caller buffer
(past the setup block for control transfers) and the status / actual-length
fields are set; a cancelled request maps to the cancelled status and any
other failure to the error status.  The subsequent synchronous callback
invocation and the optional free-on-completion are external effects not
modelled here. -/
def processCompletedAsyncTransfer (t : LibusbTransfer)
    (requestResult : RequestResult TransferResultInfo) : LibusbTransfer :=
  match requestResult with
  | .success info =>
    let isShortNotOk := t.flags &&& LIBUSB_TRANSFER_SHORT_NOT_OK ≠ 0
    let regionOffset :=
      if t.type ≠ LIBUSB_TRANSFER_TYPE_CONTROL then 0
      else LIBUSB_CONTROL_SETUP_SIZE
    let r := processLibusbTransferResult info isShortNotOk t.length
      (t.buffer.drop regionOffset)
    { t with
      status := r.status
      buffer := t.buffer.take regionOffset ++ r.data
      actual_length := r.actualLength.getD t.actual_length }
  | .canceled => { t with status := .cancelled }
  | .failed => { t with status := .error }

/-- `LibusbHandleEventsTimeout`: the blocking wait-and-extract on the owning
context is an external synchronisation primitive; its outcome is modelled by
the `extracted` argument (`none` for a timeout with no completed transfer).
The returned status code is paired with the finalized transfer, if any. -/
def libusbHandleEventsTimeout (_context : Option Unit) (_timeoutSeconds : Int)
    (extracted : Option (LibusbTransfer × RequestResult TransferResultInfo)) :
    Int × Option LibusbTransfer :=
  match extracted with
  | some (t, requestResult) =>
    (LIBUSB_SUCCESS, some (processCompletedAsyncTransfer t requestResult))
  | none => (LIBUSB_SUCCESS, none)

/-- `LibusbControlTransfer` (the synchronous variant), with the upstream
`ControlTransfer` platform call modelled by its `RequestResult`.  Returns the
status-or-byte-count together with the caller's data buffer after the call. -/
def libusbControlTransfer (deviceHandlePresent : Bool)
    (requestType request value index : Nat) (data : List Nat)
    (length : Nat) (timeout : Nat)
    (upstream : RequestResult TransferResultInfo) :
    Outcome (Int × List Nat) :=
  if ¬ deviceHandlePresent then .abort
  else
    -- The builder always succeeds, so the INVALID_PARAM branch of the source
    -- is dead on this path.
    let _transferInfo := createChromeUsbControlTransferInfoFromFields
      requestType request value index data length timeout
    match upstream with
    | .success info =>
      let r := processLibusbTransferResult info false (Int.ofNat length) data
      let errorCode := libusbTransferStatusToLibusbErrorCode r.status
      if errorCode = LIBUSB_SUCCESS then .ok (r.actualLength.getD 0, r.data)
      else .ok (errorCode, r.data)
    | .canceled => .ok (LIBUSB_ERROR_OTHER, data)
    | .failed => .ok (LIBUSB_ERROR_OTHER, data)

/-- `LibusbGetDeviceAddress`: derives the address from the opaque 64-bit
platform device id; ids at or above 255 trip the `GOOGLE_SMART_CARD_CHECK`
(note the strict comparison against `numeric_limits<uint8_t>::max()`), and
the surviving id is truncated to a byte by the `uint8_t` cast. -/
def libusbGetDeviceAddress (deviceId : Int) : Outcome Nat :=
  if deviceId < 255 then .ok (deviceId % 256).toNat else .abort

/-- `LibusbGetBusNumber`: constant stub. -/
def libusbGetBusNumber : Nat := kFakeDeviceBusNumber

/-! ## Helper lemmas -/

theorem overwrite_if_eq (dst src : List Nat) (v : Int) :
    (if v ≠ 0 then listOverwrite dst src v.toNat else dst)
      = src.take v.toNat ++ dst.drop v.toNat := by
  by_cases hv : v = 0
  · subst hv
    simp [listOverwrite]
  · simp [hv, listOverwrite]

/-- Evaluation of `processLibusbTransferResult` on a successful result that
carries a response buffer. -/
theorem processResult_success_data_eq (d buf : List Nat) (b : Bool) (l : Int) :
    processLibusbTransferResult
        ⟨some kTransferResultInfoSuccessResultCode, some d⟩ b l buf =
      ⟨if b ∧ min (Int.ofNat d.length) l < l then LibusbTransferStatus.error
        else LibusbTransferStatus.completed,
       d.take (min (Int.ofNat d.length) l).toNat ++
         buf.drop (min (Int.ofNat d.length) l).toNat,
       some (min (Int.ofNat d.length) l)⟩ := by
  simp only [processLibusbTransferResult, ne_eq, not_true_eq_false, if_false]
  rw [overwrite_if_eq]

/-- Evaluation of `processLibusbTransferResult` on a successful result that
carries no response buffer. -/
theorem processResult_success_nodata_eq (buf : List Nat) (b : Bool) (l : Int) :
    processLibusbTransferResult
        ⟨some kTransferResultInfoSuccessResultCode, none⟩ b l buf =
      ⟨LibusbTransferStatus.completed, buf, some l⟩ := by
  simp [processLibusbTransferResult]

/-- The value stored through the `actual_length` out-pointer is never
negative when the requested length is non-negative (it is a minimum of two
non-negative numbers, or the requested length itself, or left at the default
zero). -/
theorem processResult_actual_nonneg (info : TransferResultInfo) (b : Bool)
    (len : Nat) (data : List Nat) :
    0 ≤ (processLibusbTransferResult info b (Int.ofNat len)
          data).actualLength.getD 0 := by
  match info with
  | ⟨none, d?⟩ => simp [processLibusbTransferResult]
  | ⟨some code, d?⟩ =>
    by_cases hc : code = kTransferResultInfoSuccessResultCode
    · subst hc
      cases d? with
      | none =>
        rw [processResult_success_nodata_eq]
        simp
      | some d =>
        rw [processResult_success_data_eq]
        simp only [Option.getD_some]
        exact le_min (Int.ofNat_nonneg d.length) (Int.ofNat_nonneg len)
    · simp [processLibusbTransferResult, hc]

theorem fillEndpoint_ok_extra (e : ChromeUsbEndpointDescriptor)
    (r : LibusbEndpointDescriptor)
    (h : fillLibusbEndpointDescriptor e = Outcome.ok r) :
    r.extra = copyRawData e.extra_data ∧
      r.extra_length = e.extra_data.length := by
  unfold fillLibusbEndpointDescriptor at h
  split at h
  · exact absurd h (by simp)
  · injection h with h2
    subst h2
    exact ⟨rfl, rfl⟩

theorem fillInterfaceDescriptor_ok_extra (d : ChromeUsbInterfaceDescriptor)
    (r : LibusbInterfaceDescriptor)
    (h : fillLibusbInterfaceDescriptor d = Outcome.ok r) :
    r.extra = copyRawData d.extra_data ∧
      r.extra_length = d.extra_data.length := by
  unfold fillLibusbInterfaceDescriptor at h
  split at h
  · exact absurd h (by simp)
  · injection h with h2
    subst h2
    exact ⟨rfl, rfl⟩

theorem fillConfig_ok_extra (c : ChromeUsbConfigDescriptor)
    (r : LibusbConfigDescriptor)
    (h : fillLibusbConfigDescriptor c = Outcome.ok r) :
    r.extra = copyRawData c.extra_data ∧
      r.extra_length = c.extra_data.length := by
  unfold fillLibusbConfigDescriptor at h
  split at h
  · exact absurd h (by simp)
  · injection h with h2
    subst h2
    exact ⟨rfl, rfl⟩

theorem buildActive_ok_of_inactive (l : List ChromeUsbConfigDescriptor)
    (acc : Option LibusbConfigDescriptor)
    (h : ∀ c ∈ l, c.active = false) :
    buildActiveConfigDescriptor l acc = Outcome.ok acc := by
  induction l with
  | nil => rfl
  | cons c rest ih =>
    have hc := h c (List.mem_cons_self c rest)
    simp only [buildActiveConfigDescriptor, hc, Bool.false_eq_true, if_false]
    exact ih fun x hx => h x (List.mem_cons_of_mem c hx)

theorem buildActive_append_of_inactive (l₁ rest : List ChromeUsbConfigDescriptor)
    (acc : Option LibusbConfigDescriptor)
    (h : ∀ c ∈ l₁, c.active = false) :
    buildActiveConfigDescriptor (l₁ ++ rest) acc
      = buildActiveConfigDescriptor rest acc := by
  induction l₁ with
  | nil => rfl
  | cons c tail ih =>
    have hc := h c (List.mem_cons_self c tail)
    simp only [List.cons_append, buildActiveConfigDescriptor, hc,
      Bool.false_eq_true, if_false]
    exact ih fun x hx => h x (List.mem_cons_of_mem c hx)

theorem buildActive_abort_of_second_active
    (l : List ChromeUsbConfigDescriptor) (desc : LibusbConfigDescriptor)
    (h : ∃ c ∈ l, c.active = true) :
    buildActiveConfigDescriptor l (some desc) = Outcome.abort := by
  induction l with
  | nil => simp at h
  | cons c rest ih =>
    by_cases hc : c.active
    · simp [buildActiveConfigDescriptor, hc]
    · simp only [buildActiveConfigDescriptor, hc, Bool.false_eq_true, if_false]
      apply ih
      obtain ⟨x, hx, hxa⟩ := h
      rcases List.mem_cons.mp hx with rfl | hmem
      · exact absurd hxa hc
      · exact ⟨x, hmem, hxa⟩

/-! ## Claim theorems -/

/-- Claim C1: for a transfer completion result with a present response
payload and the success result code, letting `delivered` be the minimum of
the response length and the requested length: with the short-packet-not-ok
flag set and `delivered` strictly below the requested length the status is
the error status, even though the delivered bytes were copied into the
buffer and the actual length was set to `delivered`; with the flag unset the
status is the completed status and the actual length is `delivered`. -/
theorem c1_short_packet_semantics (d buf : List Nat) (l : Int) :
    (min (Int.ofNat d.length) l < l →
      (processLibusbTransferResult
          ⟨some kTransferResultInfoSuccessResultCode, some d⟩ true l
          buf).status = LibusbTransferStatus.error ∧
      (processLibusbTransferResult
          ⟨some kTransferResultInfoSuccessResultCode, some d⟩ true l
          buf).data =
        d.take (min (Int.ofNat d.length) l).toNat ++
          buf.drop (min (Int.ofNat d.length) l).toNat ∧
      (processLibusbTransferResult
          ⟨some kTransferResultInfoSuccessResultCode, some d⟩ true l
          buf).actualLength = some (min (Int.ofNat d.length) l)) ∧
    ((processLibusbTransferResult
        ⟨some kTransferResultInfoSuccessResultCode, some d⟩ false l
        buf).status = LibusbTransferStatus.completed ∧
     (processLibusbTransferResult
        ⟨some kTransferResultInfoSuccessResultCode, some d⟩ false l
        buf).data =
       d.take (min (Int.ofNat d.length) l).toNat ++
         buf.drop (min (Int.ofNat d.length) l).toNat ∧
     (processLibusbTransferResult
        ⟨some kTransferResultInfoSuccessResultCode, some d⟩ false l
        buf).actualLength = some (min (Int.ofNat d.length) l)) := by
  rw [processResult_success_data_eq, processResult_success_data_eq]
  constructor
  · intro h
    have h' : (d.length : Int) < l := by
      rcases min_lt_iff.mp h with h2 | h2
      · exact_mod_cast h2
      · exact absurd h2 (lt_irrefl l)
    simp [h, h']
  · simp

/-- Witness for C1 at the spec's example: requested length 64, a ten-byte
response; the short-not-ok run errors, the plain run completes with actual
length ten. -/
theorem c1_short_packet_semantics_witness :
    min (Int.ofNat ([1, 2, 3, 4, 5, 6, 7, 8, 9, 10] : List Nat).length) 64
        < 64 ∧
    (processLibusbTransferResult
        ⟨some kTransferResultInfoSuccessResultCode,
          some [1, 2, 3, 4, 5, 6, 7, 8, 9, 10]⟩ true 64
        (List.replicate 64 0)).status = LibusbTransferStatus.error ∧
    (processLibusbTransferResult
        ⟨some kTransferResultInfoSuccessResultCode,
          some [1, 2, 3, 4, 5, 6, 7, 8, 9, 10]⟩ false 64
        (List.replicate 64 0)).status = LibusbTransferStatus.completed ∧
    (processLibusbTransferResult
        ⟨some kTransferResultInfoSuccessResultCode,
          some [1, 2, 3, 4, 5, 6, 7, 8, 9, 10]⟩ false 64
        (List.replicate 64 0)).actualLength = some 10 :=
  ⟨by decide,
   ((c1_short_packet_semantics [1, 2, 3, 4, 5, 6, 7, 8, 9, 10]
      (List.replicate 64 0) 64).1 (by decide)).1,
   (c1_short_packet_semantics [1, 2, 3, 4, 5, 6, 7, 8, 9, 10]
      (List.replicate 64 0) 64).2.1,
   by
    have h := (c1_short_packet_semantics [1, 2, 3, 4, 5, 6, 7, 8, 9, 10]
      (List.replicate 64 0) 64).2.2.2
    simpa using h⟩

/-- Claim C7 counterexample: a device id of 255 fits in one byte, so the
claim demands the truncated id be returned; the source's
`GOOGLE_SMART_CARD_CHECK(device_id < numeric_limits<uint8_t>::max())` is a
strict comparison, so the call aborts instead.  Conversely the claim demands
an abort for the out-of-byte-range id -1, but -1 passes the strict check and
the call returns its byte truncation 255. -/
theorem c7_device_address_counterexample :
    libusbGetDeviceAddress 255 = Outcome.abort ∧
    libusbGetDeviceAddress (-1) = Outcome.ok 255 := by decide

/-- Claim C7 (amended): the address is derived from the opaque device id;
whenever the id is strictly below 255 (negative ids included) the call
returns the id truncated to a byte, and for ids of 255 and above the call
aborts (fail-fast assertion, not a recoverable error). -/
theorem c7_device_address_amended (deviceId : Int) :
    (deviceId < 255 →
      libusbGetDeviceAddress deviceId = Outcome.ok (deviceId % 256).toNat) ∧
    (255 ≤ deviceId → libusbGetDeviceAddress deviceId = Outcome.abort) := by
  constructor
  · intro h
    simp [libusbGetDeviceAddress, h]
  · intro h
    simp [libusbGetDeviceAddress, not_lt.mpr h]

/-- Witness for C7 (amended) at ids 42 and 300. -/
theorem c7_device_address_amended_witness :
    ((42 : Int) < 255 ∧ libusbGetDeviceAddress 42 = Outcome.ok 42) ∧
    ((255 : Int) ≤ 300 ∧ libusbGetDeviceAddress 300 = Outcome.abort) :=
  ⟨⟨by decide, (c7_device_address_amended 42).1 (by decide)⟩,
   ⟨by decide, (c7_device_address_amended 300).2 (by decide)⟩⟩

/-- Claim C8: a successful transfer result with no response data buffer is
finalized with the actual length set to the full requested length (and the
destination buffer untouched, the status being the completed status). -/
theorem c8_missing_payload_full_length (b : Bool) (l : Int) (buf : List Nat) :
    (processLibusbTransferResult
        ⟨some kTransferResultInfoSuccessResultCode, none⟩ b l
        buf).actualLength = some l ∧
    (processLibusbTransferResult
        ⟨some kTransferResultInfoSuccessResultCode, none⟩ b l
        buf).data = buf ∧
    (processLibusbTransferResult
        ⟨some kTransferResultInfoSuccessResultCode, none⟩ b l
        buf).status = LibusbTransferStatus.completed := by
  rw [processResult_success_nodata_eq]
  exact ⟨rfl, rfl, rfl⟩

/-- Claim C9: the blocking event-handling call returns the success status
code for every context (including the null context substituted by the
default one), every timeout, and every extraction outcome — both when a
completed transfer was extracted and finalized and when the wait timed out
with nothing to extract. -/
theorem c9_handle_events_always_success (context : Option Unit)
    (timeoutSeconds : Int)
    (extracted : Option (LibusbTransfer × RequestResult TransferResultInfo)) :
    (libusbHandleEventsTimeout context timeoutSeconds extracted).1
      = LIBUSB_SUCCESS := by
  cases extracted with
  | none => rfl
  | some p => rfl

/-- Claim C2: submitting a control transfer (with no zero-packet flag, so
the earlier not-supported branch does not fire) whose declared total length
is below the 8-byte setup size, or whose little-endian `wLength` differs
from total length minus 8, returns the invalid-parameter error code to the
caller rather than aborting; in particular total length 8 with `wLength` 1
is rejected and total length 9 with `wLength` 1 is accepted. -/
theorem c2_control_length_validation :
    (∀ t : LibusbTransfer, t.devHandlePresent = true →
      t.devicePresent = true → t.type = LIBUSB_TRANSFER_TYPE_CONTROL →
      t.flags &&& LIBUSB_TRANSFER_ADD_ZERO_PACKET = 0 →
      (t.length < (LIBUSB_CONTROL_SETUP_SIZE : Int) ∨
        ((libusbControlTransferGetSetup t.buffer).wLength : Int) ≠
          t.length - (LIBUSB_CONTROL_SETUP_SIZE : Int)) →
      libusbSubmitTransfer t = Outcome.ok LIBUSB_ERROR_INVALID_PARAM) ∧
    libusbSubmitTransfer
      { devHandlePresent := true, devicePresent := true,
        type := LIBUSB_TRANSFER_TYPE_CONTROL, flags := 0, endpoint := 0,
        length := 8, buffer := [0, 0, 0, 0, 0, 0, 1, 0], timeout := 0,
        status := .completed, actual_length := 0 }
      = Outcome.ok LIBUSB_ERROR_INVALID_PARAM ∧
    libusbSubmitTransfer
      { devHandlePresent := true, devicePresent := true,
        type := LIBUSB_TRANSFER_TYPE_CONTROL, flags := 0, endpoint := 0,
        length := 9, buffer := [0, 0, 0, 0, 0, 0, 1, 0, 171], timeout := 0,
        status := .completed, actual_length := 0 }
      = Outcome.ok LIBUSB_SUCCESS := by
  refine ⟨?_, by decide, by decide⟩
  intro t h1 h2 h3 h4 h5
  have hcreate : createChromeUsbControlTransferInfo t = none := by
    unfold createChromeUsbControlTransferInfo
    by_cases hl : t.length < (LIBUSB_CONTROL_SETUP_SIZE : Int)
    · have hneg : t.length < 0 ∨ t.length < (LIBUSB_CONTROL_SETUP_SIZE : Int) :=
        Or.inr hl
      simp [hneg]
    · have hneg : ¬ (t.length < 0 ∨
          t.length < (LIBUSB_CONTROL_SETUP_SIZE : Int)) := by
        push_neg
        constructor
        · exact le_trans (by norm_num [LIBUSB_CONTROL_SETUP_SIZE])
            (not_lt.mp hl)
        · exact not_lt.mp hl
      have hw : ((libusbControlTransferGetSetup t.buffer).wLength : Int) ≠
          t.length - (LIBUSB_CONTROL_SETUP_SIZE : Int) := by
        rcases h5 with h | h
        · exact absurd h hl
        · exact h
      simp [hneg, hw]
  simp [libusbSubmitTransfer, h1, h2, h3, h4, hcreate]

/-- Witness for C2 at a concrete malformed transfer: total length 8 with a
declared `wLength` of 1 mismatches, and submission returns the
invalid-parameter code. -/
theorem c2_control_length_validation_witness :
    (((8 : Int) < (LIBUSB_CONTROL_SETUP_SIZE : Int) ∨
      ((libusbControlTransferGetSetup
          [0, 0, 0, 0, 0, 0, 1, 0]).wLength : Int) ≠
        (8 : Int) - (LIBUSB_CONTROL_SETUP_SIZE : Int))) ∧
    libusbSubmitTransfer
      { devHandlePresent := true, devicePresent := true,
        type := LIBUSB_TRANSFER_TYPE_CONTROL, flags := 0, endpoint := 0,
        length := 8, buffer := [0, 0, 0, 0, 0, 0, 1, 0], timeout := 0,
        status := .completed, actual_length := 0 }
      = Outcome.ok LIBUSB_ERROR_INVALID_PARAM :=
  ⟨Or.inr (by decide),
   c2_control_length_validation.1
     { devHandlePresent := true, devicePresent := true,
       type := LIBUSB_TRANSFER_TYPE_CONTROL, flags := 0, endpoint := 0,
       length := 8, buffer := [0, 0, 0, 0, 0, 0, 1, 0], timeout := 0,
       status := .completed, actual_length := 0 }
     rfl rfl rfl (by decide) (Or.inr (by decide))⟩

/-- Claim C5 counterexample: a transfer of isochronous kind trips the
`GOOGLE_SMART_CARD_CHECK` on the transfer type and aborts at submission,
instead of returning the not-supported error code that the claim promises. -/
theorem c5_isochronous_counterexample :
    libusbSubmitTransfer
      { devHandlePresent := true, devicePresent := true,
        type := LIBUSB_TRANSFER_TYPE_ISOCHRONOUS, flags := 0, endpoint := 0,
        length := 0, buffer := [], timeout := 0, status := .completed,
        actual_length := 0 } = Outcome.abort := by decide

/-- Claim C5 (amended): a transfer carrying the zero-packet-append flag is
rejected at submission with the not-supported error code returned to the
caller; a transfer of isochronous kind instead trips a fail-fast assertion
and aborts at submission (as does allocating a transfer with a non-zero
isochronous packet count). -/
theorem c5_unsupported_amended :
    (∀ t : LibusbTransfer, t.devHandlePresent = true →
      (t.type = LIBUSB_TRANSFER_TYPE_CONTROL ∨
        t.type = LIBUSB_TRANSFER_TYPE_BULK ∨
        t.type = LIBUSB_TRANSFER_TYPE_INTERRUPT) →
      t.flags &&& LIBUSB_TRANSFER_ADD_ZERO_PACKET ≠ 0 →
      libusbSubmitTransfer t = Outcome.ok LIBUSB_ERROR_NOT_SUPPORTED) ∧
    (∀ t : LibusbTransfer, t.devHandlePresent = true →
      t.type = LIBUSB_TRANSFER_TYPE_ISOCHRONOUS →
      libusbSubmitTransfer t = Outcome.abort) ∧
    (∀ n : Int, n ≠ 0 → libusbAllocTransfer n = Outcome.abort) ∧
    LIBUSB_ERROR_NOT_SUPPORTED < 0 := by
  refine ⟨?_, ?_, ?_, by decide⟩
  · intro t h1 h2 h3
    simp [libusbSubmitTransfer, h1, h2, h3]
  · intro t h1 h2
    simp [libusbSubmitTransfer, h1, h2, LIBUSB_TRANSFER_TYPE_CONTROL,
      LIBUSB_TRANSFER_TYPE_BULK, LIBUSB_TRANSFER_TYPE_INTERRUPT,
      LIBUSB_TRANSFER_TYPE_ISOCHRONOUS]
  · intro n h
    simp [libusbAllocTransfer, h]

/-- Witness for C5 (amended): a bulk transfer with the zero-packet flag gets
the not-supported code; an isochronous transfer aborts; allocating with one
isochronous packet aborts. -/
theorem c5_unsupported_amended_witness :
    libusbSubmitTransfer
      { devHandlePresent := true, devicePresent := true,
        type := LIBUSB_TRANSFER_TYPE_BULK,
        flags := LIBUSB_TRANSFER_ADD_ZERO_PACKET, endpoint := 2,
        length := 4, buffer := [1, 2, 3, 4], timeout := 0,
        status := .completed, actual_length := 0 }
      = Outcome.ok LIBUSB_ERROR_NOT_SUPPORTED ∧
    libusbSubmitTransfer
      { devHandlePresent := true, devicePresent := true,
        type := LIBUSB_TRANSFER_TYPE_ISOCHRONOUS, flags := 0, endpoint := 0,
        length := 0, buffer := [], timeout := 0, status := .completed,
        actual_length := 0 } = Outcome.abort ∧
    libusbAllocTransfer 1 = Outcome.abort :=
  ⟨c5_unsupported_amended.1
     { devHandlePresent := true, devicePresent := true,
       type := LIBUSB_TRANSFER_TYPE_BULK,
       flags := LIBUSB_TRANSFER_ADD_ZERO_PACKET, endpoint := 2,
       length := 4, buffer := [1, 2, 3, 4], timeout := 0,
       status := .completed, actual_length := 0 }
     rfl (Or.inr (Or.inl rfl)) (by decide),
   c5_unsupported_amended.2.1
     { devHandlePresent := true, devicePresent := true,
       type := LIBUSB_TRANSFER_TYPE_ISOCHRONOUS, flags := 0, endpoint := 0,
       length := 0, buffer := [], timeout := 0, status := .completed,
       actual_length := 0 }
     rfl rfl,
   c5_unsupported_amended.2.2.1 1 (by decide)⟩

/-- Claim C3 counterexample: when the platform returns two configuration
records both flagged active, `LibusbGetActiveConfigDescriptor` trips the
`GOOGLE_SMART_CARD_CHECK(!*config_descriptor)` assertion on the second one
and aborts, instead of returning the negative error status the claim
promises. -/
theorem c3_active_config_counterexample :
    libusbGetActiveConfigDescriptor
      (some [⟨true, 1, false, false, 0, [], []⟩,
             ⟨true, 1, false, false, 0, [], []⟩]) = Outcome.abort := by
  decide

/-- Claim C3 (amended): with exactly one record flagged active the call
translates and returns that record with the success status; with zero
records flagged active it is a reported failure (the negative generic error
status); with two or more records flagged active the call aborts on a
fail-fast assertion rather than reporting an error. -/
theorem c3_active_config_amended :
    (∀ l : List ChromeUsbConfigDescriptor, (∀ c ∈ l, c.active = false) →
      libusbGetActiveConfigDescriptor (some l)
        = Outcome.ok (LIBUSB_ERROR_OTHER, none)) ∧
    (∀ (l₁ : List ChromeUsbConfigDescriptor) (c : ChromeUsbConfigDescriptor)
        (l₂ : List ChromeUsbConfigDescriptor) (desc : LibusbConfigDescriptor),
      (∀ x ∈ l₁, x.active = false) → (∀ x ∈ l₂, x.active = false) →
      c.active = true → fillLibusbConfigDescriptor c = Outcome.ok desc →
      libusbGetActiveConfigDescriptor (some (l₁ ++ c :: l₂))
        = Outcome.ok (LIBUSB_SUCCESS, some desc)) ∧
    (∀ (l₁ : List ChromeUsbConfigDescriptor) (c : ChromeUsbConfigDescriptor)
        (l₂ : List ChromeUsbConfigDescriptor),
      (∀ x ∈ l₁, x.active = false) → c.active = true →
      (∃ x ∈ l₂, x.active = true) →
      libusbGetActiveConfigDescriptor (some (l₁ ++ c :: l₂))
        = Outcome.abort) ∧
    LIBUSB_ERROR_OTHER < 0 := by
  refine ⟨?_, ?_, ?_, by decide⟩
  · intro l h
    simp [libusbGetActiveConfigDescriptor,
      buildActive_ok_of_inactive l none h]
  · intro l₁ c l₂ desc h1 h2 hc hfill
    have key : buildActiveConfigDescriptor (l₁ ++ c :: l₂) none
        = Outcome.ok (some desc) := by
      rw [buildActive_append_of_inactive l₁ (c :: l₂) none h1]
      simp only [buildActiveConfigDescriptor, hc, if_true, hfill]
      exact buildActive_ok_of_inactive l₂ (some desc) h2
    simp [libusbGetActiveConfigDescriptor, key]
  · intro l₁ c l₂ h1 hc h2
    have key : buildActiveConfigDescriptor (l₁ ++ c :: l₂) none
        = Outcome.abort := by
      rw [buildActive_append_of_inactive l₁ (c :: l₂) none h1]
      cases hfill : fillLibusbConfigDescriptor c with
      | abort => simp [buildActiveConfigDescriptor, hc, hfill]
      | ok desc =>
        simp only [buildActiveConfigDescriptor, hc, if_true, hfill]
        exact buildActive_abort_of_second_active l₂ desc h2
    simp [libusbGetActiveConfigDescriptor, key]

/-- Witness for C3 (amended): a single active configuration is translated
and returned with the success status, and an empty configuration list is a
reported failure. -/
theorem c3_active_config_amended_witness :
    fillLibusbConfigDescriptor ⟨true, 1, false, false, 0, [], []⟩
      = Outcome.ok
        { bLength := sizeofLibusbConfigDescriptor
          bDescriptorType := LIBUSB_DT_CONFIG
          wTotalLength := sizeofLibusbConfigDescriptor
          bNumInterfaces := 0
          bConfigurationValue := 1
          iConfiguration := 0
          bmAttributes := 0
          MaxPower := 0
          itf := []
          extra := none
          extra_length := 0 } ∧
    libusbGetActiveConfigDescriptor
        (some [⟨true, 1, false, false, 0, [], []⟩])
      = Outcome.ok (LIBUSB_SUCCESS, some
        { bLength := sizeofLibusbConfigDescriptor
          bDescriptorType := LIBUSB_DT_CONFIG
          wTotalLength := sizeofLibusbConfigDescriptor
          bNumInterfaces := 0
          bConfigurationValue := 1
          iConfiguration := 0
          bmAttributes := 0
          MaxPower := 0
          itf := []
          extra := none
          extra_length := 0 }) ∧
    libusbGetActiveConfigDescriptor
        (some ([] : List ChromeUsbConfigDescriptor))
      = Outcome.ok (LIBUSB_ERROR_OTHER, none) :=
  ⟨by decide,
   c3_active_config_amended.2.1 [] ⟨true, 1, false, false, 0, [], []⟩ []
     { bLength := sizeofLibusbConfigDescriptor
       bDescriptorType := LIBUSB_DT_CONFIG
       wTotalLength := sizeofLibusbConfigDescriptor
       bNumInterfaces := 0
       bConfigurationValue := 1
       iConfiguration := 0
       bmAttributes := 0
       MaxPower := 0
       itf := []
       extra := none
       extra_length := 0 }
     (by simp) (by simp) rfl (by decide),
   c3_active_config_amended.1 [] (by simp)⟩

/-- Claim C4 counterexample: a control transfer with total length 9 (data
length 1) finalized with a five-byte successful response.  The claim permits
at most `min(5, 1) = 1` copied byte, so every buffer position from index 9
onward would stay unchanged; the source passes the transfer's total length
(9) to the copy, so five bytes land at offset 8 and positions 9 through 12
change. -/
theorem c4_copy_bounds_counterexample :
    (processCompletedAsyncTransfer
        { devHandlePresent := true, devicePresent := true,
          type := LIBUSB_TRANSFER_TYPE_CONTROL, flags := 0, endpoint := 0,
          length := 9, buffer := [0, 0, 0, 0, 0, 0, 1, 0, 0, 0, 0, 0, 0],
          timeout := 0, status := .completed, actual_length := 0 }
        (RequestResult.success
          ⟨some kTransferResultInfoSuccessResultCode,
            some [3, 7, 9, 2, 6]⟩)).buffer.drop 9
      ≠ ([0, 0, 0, 0, 0, 0, 1, 0, 0, 0, 0, 0, 0] : List Nat).drop 9 := by
  decide

/-- Claim C4 (amended): finalizing a successful transfer result copies at
most `min(response length, transfer->length)` bytes — the bound uses the
transfer's total declared length in every case, including control transfers,
where it is the data length plus the 8-byte setup block.  The destination is
offset past the setup block for control transfers and is the buffer start
for the other kinds, so the resulting buffer is exactly the old prefix, the
copied response prefix, and the untouched tail. -/
theorem c4_copy_bounds_amended :
    (∀ (t : LibusbTransfer) (d : List Nat),
      t.type = LIBUSB_TRANSFER_TYPE_CONTROL →
      (processCompletedAsyncTransfer t
          (RequestResult.success
            ⟨some kTransferResultInfoSuccessResultCode, some d⟩)).buffer
        = t.buffer.take LIBUSB_CONTROL_SETUP_SIZE ++
            (d.take (min (Int.ofNat d.length) t.length).toNat ++
              (t.buffer.drop LIBUSB_CONTROL_SETUP_SIZE).drop
                (min (Int.ofNat d.length) t.length).toNat)) ∧
    (∀ (t : LibusbTransfer) (d : List Nat),
      t.type ≠ LIBUSB_TRANSFER_TYPE_CONTROL →
      (processCompletedAsyncTransfer t
          (RequestResult.success
            ⟨some kTransferResultInfoSuccessResultCode, some d⟩)).buffer
        = d.take (min (Int.ofNat d.length) t.length).toNat ++
            t.buffer.drop (min (Int.ofNat d.length) t.length).toNat) := by
  constructor
  · intro t d h
    simp [processCompletedAsyncTransfer, h, processResult_success_data_eq]
  · intro t d h
    simp [processCompletedAsyncTransfer, h, processResult_success_data_eq]

/-- Witness for C4 (amended) at a concrete control transfer (total length
12, two response bytes landing past the setup block) and a concrete bulk
transfer. -/
theorem c4_copy_bounds_amended_witness :
    (processCompletedAsyncTransfer
        { devHandlePresent := true, devicePresent := true,
          type := LIBUSB_TRANSFER_TYPE_CONTROL, flags := 0, endpoint := 0,
          length := 12, buffer := [0, 0, 0, 0, 0, 0, 4, 0, 1, 2, 3, 4],
          timeout := 0, status := .completed, actual_length := 0 }
        (RequestResult.success
          ⟨some kTransferResultInfoSuccessResultCode, some [9, 8]⟩)).buffer
      = [0, 0, 0, 0, 0, 0, 4, 0, 9, 8, 3, 4] ∧
    (processCompletedAsyncTransfer
        { devHandlePresent := true, devicePresent := true,
          type := LIBUSB_TRANSFER_TYPE_BULK, flags := 0, endpoint := 2,
          length := 3, buffer := [1, 2, 3], timeout := 0,
          status := .completed, actual_length := 0 }
        (RequestResult.success
          ⟨some kTransferResultInfoSuccessResultCode, some [7]⟩)).buffer
      = [7, 2, 3] :=
  ⟨(c4_copy_bounds_amended.1
      { devHandlePresent := true, devicePresent := true,
        type := LIBUSB_TRANSFER_TYPE_CONTROL, flags := 0, endpoint := 0,
        length := 12, buffer := [0, 0, 0, 0, 0, 0, 4, 0, 1, 2, 3, 4],
        timeout := 0, status := .completed, actual_length := 0 }
      [9, 8] rfl).trans (by decide),
   (c4_copy_bounds_amended.2
      { devHandlePresent := true, devicePresent := true,
        type := LIBUSB_TRANSFER_TYPE_BULK, flags := 0, endpoint := 2,
        length := 3, buffer := [1, 2, 3], timeout := 0,
        status := .completed, actual_length := 0 }
      [7] (by decide)).trans (by decide)⟩

/-- Claim C6: for a synchronous control transfer with a non-null device
handle, when the upstream request succeeds and result processing yields the
completed status the call returns the (non-negative) actual byte count with
the processed buffer; when the upstream request fails the call returns the
negative generic error code and the caller buffer is unmodified. -/
theorem c6_sync_control_transfer (rt rq v i : Nat) (data : List Nat)
    (len timeout : Nat) (info : TransferResultInfo) :
    ((processLibusbTransferResult info false (Int.ofNat len) data).status
        = LibusbTransferStatus.completed →
      libusbControlTransfer true rt rq v i data len timeout
          (RequestResult.success info)
        = Outcome.ok
            ((processLibusbTransferResult info false (Int.ofNat len)
                data).actualLength.getD 0,
              (processLibusbTransferResult info false (Int.ofNat len)
                data).data) ∧
      0 ≤ (processLibusbTransferResult info false (Int.ofNat len)
            data).actualLength.getD 0) ∧
    (libusbControlTransfer true rt rq v i data len timeout
        RequestResult.failed = Outcome.ok (LIBUSB_ERROR_OTHER, data) ∧
      LIBUSB_ERROR_OTHER < 0) := by
  constructor
  · intro h
    refine ⟨?_, processResult_actual_nonneg info false len data⟩
    have h2 : (processLibusbTransferResult info false ((len : Nat) : Int)
        data).status = LibusbTransferStatus.completed := h
    simp [libusbControlTransfer, h, h2, libusbTransferStatusToLibusbErrorCode]
  · exact ⟨by simp [libusbControlTransfer], by decide⟩

/-- Witness for C6: a one-byte successful upstream response to a four-byte
request completes and returns byte count 1; an upstream failure returns the
negative generic error with the buffer intact. -/
theorem c6_sync_control_transfer_witness :
    (processLibusbTransferResult
        ⟨some kTransferResultInfoSuccessResultCode, some [5]⟩ false
        (Int.ofNat 4) [0, 0, 0, 0]).status = LibusbTransferStatus.completed ∧
    libusbControlTransfer true 128 6 0 0 [0, 0, 0, 0] 4 0
        (RequestResult.success
          ⟨some kTransferResultInfoSuccessResultCode, some [5]⟩)
      = Outcome.ok
          ((processLibusbTransferResult
              ⟨some kTransferResultInfoSuccessResultCode, some [5]⟩ false
              (Int.ofNat 4) [0, 0, 0, 0]).actualLength.getD 0,
            (processLibusbTransferResult
              ⟨some kTransferResultInfoSuccessResultCode, some [5]⟩ false
              (Int.ofNat 4) [0, 0, 0, 0]).data) ∧
    libusbControlTransfer true 128 6 0 0 [0, 0, 0, 0] 4 0
        RequestResult.failed = Outcome.ok (LIBUSB_ERROR_OTHER, [0, 0, 0, 0]) :=
  ⟨by decide,
   ((c6_sync_control_transfer 128 6 0 0 [0, 0, 0, 0] 4 0
      ⟨some kTransferResultInfoSuccessResultCode, some [5]⟩).1 (by decide)).1,
   (c6_sync_control_transfer 128 6 0 0 [0, 0, 0, 0] 4 0
      ⟨some kTransferResultInfoSuccessResultCode, some [5]⟩).2.1⟩

/-- Claim C10: for every successfully translated endpoint, interface, or
configuration descriptor, an empty platform extra-bytes payload yields a
null `extra` pointer with `extra_length` zero, and a non-empty payload
yields `extra` holding a copy of exactly those bytes with `extra_length`
equal to their count. -/
theorem c10_extra_bytes :
    (∀ (e : ChromeUsbEndpointDescriptor) (r : LibusbEndpointDescriptor),
      fillLibusbEndpointDescriptor e = Outcome.ok r →
      ((e.extra_data = [] → r.extra = none ∧ r.extra_length = 0) ∧
        (e.extra_data ≠ [] →
          r.extra = some e.extra_data ∧
            r.extra_length = e.extra_data.length))) ∧
    (∀ (d : ChromeUsbInterfaceDescriptor) (r : LibusbInterfaceDescriptor),
      fillLibusbInterfaceDescriptor d = Outcome.ok r →
      ((d.extra_data = [] → r.extra = none ∧ r.extra_length = 0) ∧
        (d.extra_data ≠ [] →
          r.extra = some d.extra_data ∧
            r.extra_length = d.extra_data.length))) ∧
    (∀ (c : ChromeUsbConfigDescriptor) (r : LibusbConfigDescriptor),
      fillLibusbConfigDescriptor c = Outcome.ok r →
      ((c.extra_data = [] → r.extra = none ∧ r.extra_length = 0) ∧
        (c.extra_data ≠ [] →
          r.extra = some c.extra_data ∧
            r.extra_length = c.extra_data.length))) := by
  refine ⟨?_, ?_, ?_⟩
  · intro e r h
    obtain ⟨hx, hl⟩ := fillEndpoint_ok_extra e r h
    constructor
    · intro hempty
      rw [hx, hl, hempty]
      exact ⟨rfl, rfl⟩
    · intro hne
      rw [hx, hl]
      simp [copyRawData, hne]
  · intro d r h
    obtain ⟨hx, hl⟩ := fillInterfaceDescriptor_ok_extra d r h
    constructor
    · intro hempty
      rw [hx, hl, hempty]
      exact ⟨rfl, rfl⟩
    · intro hne
      rw [hx, hl]
      simp [copyRawData, hne]
  · intro c r h
    obtain ⟨hx, hl⟩ := fillConfig_ok_extra c r h
    constructor
    · intro hempty
      rw [hx, hl, hempty]
      exact ⟨rfl, rfl⟩
    · intro hne
      rw [hx, hl]
      simp [copyRawData, hne]

/-- Witness for C10: a bulk endpoint with extra bytes `[1, 2]` translates
with `extra = some [1, 2]` and `extra_length = 2`; a configuration with an
empty payload translates with a null `extra` and a zero `extra_length`. -/
theorem c10_extra_bytes_witness :
    fillLibusbEndpointDescriptor
        ⟨0, EndpointDescriptorType.kBulk, none, none, 64, none, [1, 2]⟩
      = Outcome.ok
        { bLength := sizeofLibusbEndpointDescriptor
          bDescriptorType := LIBUSB_DT_ENDPOINT
          bEndpointAddress := 0
          bmAttributes := 2
          wMaxPacketSize := 64
          bInterval := 0
          bRefresh := 0
          bSynchAddress := 0
          extra := some [1, 2]
          extra_length := 2 } ∧
    (some [1, 2] = some ([1, 2] : List Nat) ∧ (2 : Nat) = 2) ∧
    (fillLibusbConfigDescriptor ⟨true, 1, false, false, 0, [], []⟩
        = Outcome.ok
          { bLength := sizeofLibusbConfigDescriptor
            bDescriptorType := LIBUSB_DT_CONFIG
            wTotalLength := sizeofLibusbConfigDescriptor
            bNumInterfaces := 0
            bConfigurationValue := 1
            iConfiguration := 0
            bmAttributes := 0
            MaxPower := 0
            itf := []
            extra := none
            extra_length := 0 } ∧
      ((none : Option (List Nat)) = none ∧ (0 : Nat) = 0)) :=
  ⟨by decide,
   (c10_extra_bytes.1
      ⟨0, EndpointDescriptorType.kBulk, none, none, 64, none, [1, 2]⟩
      { bLength := sizeofLibusbEndpointDescriptor
        bDescriptorType := LIBUSB_DT_ENDPOINT
        bEndpointAddress := 0
        bmAttributes := 2
        wMaxPacketSize := 64
        bInterval := 0
        bRefresh := 0
        bSynchAddress := 0
        extra := some [1, 2]
        extra_length := 2 }
      (by decide)).2 (by decide),
   by decide,
   (c10_extra_bytes.2.2 ⟨true, 1, false, false, 0, [], []⟩
      { bLength := sizeofLibusbConfigDescriptor
        bDescriptorType := LIBUSB_DT_CONFIG
        wTotalLength := sizeofLibusbConfigDescriptor
        bNumInterfaces := 0
        bConfigurationValue := 1
        iConfiguration := 0
        bmAttributes := 0
        MaxPower := 0
        itf := []
        extra := none
        extra_length := 0 }
      (by decide)).1 rfl⟩

end ChromeUsbLibusb
